import Mathlib

/-!
Shallow embedding of custom_components/snmp_matis_gateway/hub.py and proofs
of the specification claims about it.

Modelling conventions:
* Python dicts become association lists over String keys (dictGet, dictSet);
  lookup and update act on the first matching key, as in a dict whose keys
  are unique.
* The SNMP transport is a parameter: a poll or probe run receives a function
  from OID strings to the Optional string produced by snmp get for that OID.
  The getCmd and setCmd result triples consumed by the code are modelled by
  CmdResult.
* Python float values are modelled by the rationals; float(str) is modelled
  by parseFloat, and a raising Python callable is modelled with Except Unit.
* Values stored in the hub value cache (typed Any in the source) are
  modelled by PyVal: a number, a string, or None.
* The asyncio execution of one poll tick is modelled as a list of atomic
  actions separated by suspension points: one fetch action per sensor (the
  result of awaiting asyncio.to_thread) followed by the transform loop,
  which contains no await and therefore runs as a single atomic action with
  respect to every other coroutine on the event loop.
-/

/-- Python dict lookup: value of the first entry with the given key. -/
def dictGet {α : Type} : List (String × α) → String → Option α
  | [], _ => none
  | (k, v) :: rest, key => if k = key then some v else dictGet rest key

/-- Python dict assignment: replace the first entry with the key, else append. -/
def dictSet {α : Type} : List (String × α) → String → α → List (String × α)
  | [], key, v => [(key, v)]
  | (k, w) :: rest, key, v =>
    if k = key then (key, v) :: rest else (k, w) :: dictSet rest key v

/-- Digits to a natural number, most significant first. -/
def digitsToNat (cs : List Char) : ℕ :=
  cs.foldl (fun a c => a * 10 + (c.toNat - 48)) 0

/-- Model of the Python float(string) conversion: optional sign, then digits
with an optional decimal point; any other shape fails (ValueError). -/
def parseFloat (s : String) : Option ℚ :=
  let cs := s.toList
  let signed : Bool × List Char :=
    match cs with
    | '-' :: rest => (true, rest)
    | '+' :: rest => (false, rest)
    | _ => (false, cs)
  let intPart := signed.2.takeWhile Char.isDigit
  let rest := signed.2.dropWhile Char.isDigit
  let mag : Option ℚ :=
    match rest with
    | [] => if intPart.isEmpty then none else some (digitsToNat intPart : ℚ)
    | '.' :: fr =>
      let fracPart := fr.takeWhile Char.isDigit
      let rest2 := fr.dropWhile Char.isDigit
      if rest2.isEmpty && !(intPart.isEmpty && fracPart.isEmpty) then
        some ((digitsToNat intPart : ℚ) +
          (digitsToNat fracPart : ℚ) / ((10 : ℚ) ^ fracPart.length))
      else none
    | _ => none
  match mag with
  | none => none
  | some q => some (if signed.1 then -q else q)

/-- float(s) as a fallible call: raises (Except.error) on a non-numeric string. -/
def pyFloat (s : String) : Except Unit ℚ :=
  match parseFloat s with
  | some q => Except.ok q
  | none => Except.error ()

/-- A value held in the hub value cache (the source types it Any). -/
inductive PyVal where
  | vnum (q : ℚ)
  | vstr (s : String)
  | vnone
deriving DecidableEq

/-- hub.py TRANSFORMS: name to transform lambda. Each lambda returns None for
None input and otherwise calls float(v), which raises on a non-numeric
string; the raise is modelled by Except.error. -/
def TRANSFORMS : List (String × (Option String → Except Unit (Option ℚ))) :=
  [("raw_int", fun v => match v with
      | none => Except.ok none
      | some s => (pyFloat s).map (fun x => some x)),
   ("div100", fun v => match v with
      | none => Except.ok none
      | some s => (pyFloat s).map (fun x => some (x / 100))),
   ("div1000", fun v => match v with
      | none => Except.ok none
      | some s => (pyFloat s).map (fun x => some (x / 1000))),
   ("div10", fun v => match v with
      | none => Except.ok none
      | some s => (pyFloat s).map (fun x => some (x / 10))),
   ("kW_div100_to_W", fun v => match v with
      | none => Except.ok none
      | some s => (pyFloat s).map (fun x => some (x / 100 * 1000))),
   ("kW_div1000_to_W", fun v => match v with
      | none => Except.ok none
      | some s => (pyFloat s).map (fun x => some (x / 1000 * 1000)))]

/-- The names of the transforms (the closed TransformKind set). -/
def transformNames : List String := TRANSFORMS.map Prod.fst

/-- Lines 205-209 of hub.py: look the transform up with default identity,
apply it, and catch any exception, storing None instead. -/
def applyTransformCaught (tfName : String) (raw : Option String) : PyVal :=
  match dictGet TRANSFORMS tfName with
  | some tf =>
    match tf raw with
    | Except.ok (some q) => PyVal.vnum q
    | Except.ok none => PyVal.vnone
    | Except.error _ => PyVal.vnone
  | none =>
    match raw with
    | some s => PyVal.vstr s
    | none => PyVal.vnone

/-- The triple produced by pysnmp getCmd or setCmd as hub.py consumes it. -/
structure CmdResult where
  errorIndication : Bool
  errorStatus : Bool
  varBinds : List String
deriving DecidableEq

/-- The device-side outcome of a single SNMP read. -/
inductive SnmpResponse where
  | value (s : String)
  | noSuchObject
  | timeout
  | protocolError
deriving DecidableEq

/-- How each device outcome surfaces in the getCmd triple: a timeout or a
protocol error arrives as an errorIndication, and a no-such-object report
arrives as a non-zero errorStatus. -/
def responseToCmdResult : SnmpResponse → CmdResult
  | SnmpResponse.value s => ⟨false, false, [s]⟩
  | SnmpResponse.noSuchObject => ⟨false, true, []⟩
  | SnmpResponse.timeout => ⟨true, false, []⟩
  | SnmpResponse.protocolError => ⟨true, false, []⟩

/-- hub.py lines 27-32: return None on errorIndication or errorStatus, else
the string form of the first varBind value, else None. -/
def snmp_get (r : CmdResult) : Option String :=
  if r.errorIndication || r.errorStatus then none
  else
    match r.varBinds with
    | [] => none
    | v :: _ => some v

/-- hub.py lines 46-47: a set succeeds iff neither error field is set. -/
def snmp_set (oid : String) (value : Int) (r : CmdResult) : Bool :=
  !(r.errorIndication || r.errorStatus)

/-- A sensor descriptor dict as built by async_discover. -/
structure SensorDesc where
  unique_id : String
  name : String
  oid : String
  unit : Option String
  tf : String
deriving DecidableEq

/-- A switch descriptor dict as built by async_discover. -/
structure SwitchDesc where
  unique_id : String
  name : String
  oid : String
deriving DecidableEq

/-- Python str.title() : every alphabetic run starts uppercase, rest lowercase. -/
def pyTitleGo : List Char → Bool → List Char
  | [], _ => []
  | c :: rest, prevAlpha =>
    (if c.isAlpha then (if prevAlpha then c.toLower else c.toUpper) else c) ::
      pyTitleGo rest c.isAlpha

/-- Python str.title(). -/
def pyTitle (s : String) : String := String.mk (pyTitleGo s.toList false)

/-- Python str.replace of underscores with spaces. -/
def underscoreToSpace (s : String) : String :=
  String.mk (s.toList.map (fun c => if c = '_' then ' ' else c))

/-- SDM220 table of hub.py: key, oid, unit, transform name. -/
def sdmTable : List (String × String × String × String) :=
  [("energy_total", ".1.3.6.1.4.1.45797.14.11.3.1.7.1", "kWh", "div100"),
   ("power_W", ".1.3.6.1.4.1.45797.14.11.3.1.9.1", "W", "kW_div100_to_W"),
   ("voltage", ".1.3.6.1.4.1.45797.14.11.3.1.14.1", "V", "div100"),
   ("current", ".1.3.6.1.4.1.45797.14.11.3.1.39.1", "A", "div100")]

/-- DDS table of hub.py. -/
def ddsTable : List (String × String × String × String) :=
  [("energy_total", ".1.3.6.1.4.1.45797.14.21.3.1.7.1", "kWh", "div100"),
   ("power_W", ".1.3.6.1.4.1.45797.14.21.3.1.9.1", "W", "kW_div1000_to_W"),
   ("voltage", ".1.3.6.1.4.1.45797.14.21.3.1.15.1", "V", "div100"),
   ("current", ".1.3.6.1.4.1.45797.14.21.3.1.14.1", "A", "div1000")]

/-- Battery cell SOC OID for index n. -/
def socOid (n : ℕ) : String := ".1.3.6.1.4.1.45797.14.9.5.1.11." ++ toString n

/-- Battery cell voltage OID for index n. -/
def voltOid (n : ℕ) : String := ".1.3.6.1.4.1.45797.14.9.5.1.3." ++ toString n

/-- Battery cell current OID for index n. -/
def currOid (n : ℕ) : String := ".1.3.6.1.4.1.45797.14.9.5.1.4." ++ toString n

/-- Battery cell temperature OID for index n. -/
def tempOid (n : ℕ) : String := ".1.3.6.1.4.1.45797.14.9.5.1.7." ++ toString n

/-- Attomat switch channel OID for index idx. -/
def attOid (idx : ℕ) : String := ".1.3.6.1.4.1.45797.14.18.3.1.3." ++ toString idx

/-- The four descriptors appended for battery cell n once its SOC probe
responds, gated (first component) by the SOC OID. -/
def cellGroup (n : ℕ) : String × List SensorDesc :=
  (socOid n,
   [⟨"battery_cell_" ++ toString n ++ "_soc",
     "Battery Cell " ++ toString n ++ " SOC", socOid n, some "%", "div100"⟩,
    ⟨"battery_cell_" ++ toString n ++ "_voltage",
     "Battery Cell " ++ toString n ++ " Voltage", voltOid n, some "V", "div100"⟩,
    ⟨"battery_cell_" ++ toString n ++ "_current",
     "Battery Cell " ++ toString n ++ " Current", currOid n, some "A", "div100"⟩,
    ⟨"battery_cell_" ++ toString n ++ "_temperature",
     "Battery Cell " ++ toString n ++ " Temperature", tempOid n, some "°C", "div10"⟩])

/-- The state sensor appended for attomat channel idx, gated by its OID. -/
def attSensorGroup (idx : ℕ) : String × List SensorDesc :=
  (attOid idx,
   [⟨"attomat_" ++ toString idx ++ "_state",
     "Attomat " ++ toString idx ++ " State", attOid idx, none, "raw_int"⟩])

/-- The switch descriptor appended for attomat channel idx, gated by its OID. -/
def attSwitchGroup (idx : ℕ) : String × List SwitchDesc :=
  (attOid idx,
   [⟨"attomat_" ++ toString idx, "Attomat " ++ toString idx, attOid idx⟩])

/-- The full probing catalogue of async_discover in source order: each group
is a probed OID together with the sensor descriptors appended when the probe
for that OID returns a value. -/
def sensorCatalogue : List (String × List SensorDesc) :=
  sdmTable.map (fun e => (e.2.1,
    [⟨"sdm220_" ++ e.1, "SDM220 " ++ pyTitle (underscoreToSpace e.1),
      e.2.1, some e.2.2.1, e.2.2.2⟩]))
  ++ ddsTable.map (fun e => (e.2.1,
    [⟨"dds_" ++ e.1, "DDS " ++ pyTitle (underscoreToSpace e.1),
      e.2.1, some e.2.2.1, e.2.2.2⟩]))
  ++ (List.range' 1 32).map cellGroup
  ++ (List.range' 1 8).map attSensorGroup

/-- The switch side of the probing catalogue. -/
def switchCatalogue : List (String × List SwitchDesc) :=
  (List.range' 1 8).map attSwitchGroup

/-- One probing pass: keep the descriptors of exactly the groups whose gate
OID got a (non-None) response. -/
def gatedFlatten {γ : Type} (probe : String → Option String)
    (cat : List (String × List γ)) : List γ :=
  cat.flatMap (fun g => if (probe g.1).isSome then g.2 else [])

/-- The new_sensors list built by one async_discover run under the given
probe outcomes. -/
def discoverSensors (probe : String → Option String) : List SensorDesc :=
  gatedFlatten probe sensorCatalogue

/-- The new_switches list built by one async_discover run. -/
def discoverSwitches (probe : String → Option String) : List SwitchDesc :=
  gatedFlatten probe switchCatalogue

/-- The _merge helper of async_discover: the set of existing keys is taken
once, then every new entry whose key is not in that set is appended. -/
def mergeUnique {α : Type} (key : α → String) (old new : List α) : List α :=
  let haveKeys := old.map key
  new.foldl (fun acc e => if haveKeys.contains (key e) then acc else acc ++ [e]) old

/-- The value cache: descriptor id to cached value. -/
abbrev ValueCache := List (String × PyVal)

/-- The mutable hub state: discovered descriptors and the value cache. -/
structure HubState where
  sensors : List SensorDesc
  switches : List SwitchDesc
  values : ValueCache
deriving DecidableEq

/-- Hub state right after construction. -/
def initialHub : HubState := ⟨[], [], []⟩

/-- One async_discover run: probe the catalogue and merge both descriptor
lists; the value cache is not touched. -/
def async_discover (probe : String → Option String) (st : HubState) : HubState :=
  { st with
    sensors := mergeUnique SensorDesc.unique_id st.sensors (discoverSensors probe),
    switches := mergeUnique SwitchDesc.unique_id st.switches (discoverSwitches probe) }

/-- A sequence of discovery runs starting from the fresh hub. -/
def runDiscoveries (probes : List (String → Option String)) : HubState :=
  probes.foldl (fun st p => async_discover p st) initialHub

/-- The results dict after the gather phase of one poll tick: one fetch per
sensor, keyed by OID. -/
def fetchResults (sensors : List SensorDesc) (net : String → Option String) :
    List (String × Option String) :=
  sensors.foldl (fun r s => dictSet r s.oid (net s.oid)) []

/-- The transform stage of _async_poll_all: for every sensor store the
transformed raw value under its unique_id (results.get returns None for a
missing OID, hence the Option.join). -/
def transformLoop (sensors : List SensorDesc)
    (results : List (String × Option String)) (values : ValueCache) : ValueCache :=
  sensors.foldl
    (fun vals s =>
      dictSet vals s.unique_id
        (applyTransformCaught s.tf (Option.join (dictGet results s.oid))))
    values

/-- The net effect of one complete poll tick on the value cache. -/
def publishStep (sensors : List SensorDesc) (net : String → Option String)
    (c : ValueCache) : ValueCache :=
  transformLoop sensors (fetchResults sensors net) c

/-- One _async_poll_all call as a state transformer. -/
def async_poll_all (net : String → Option String) (st : HubState) : HubState :=
  { st with values := publishStep st.sensors net st.values }

/-- hub.py get_value: self values dot get of unique_id. -/
def get_value (st : HubState) (uid : String) : PyVal :=
  match dictGet st.values uid with
  | some v => v
  | none => PyVal.vnone

/-- get_value as a state transformer: it returns the looked-up value and
performs no state change (the method body is a single dict read). -/
def get_value_step (st : HubState) (uid : String) : PyVal × HubState :=
  (get_value st uid, st)

/-- hub.py async_set_switch: delegate to snmp_set with 1 or 0 and return its
Boolean result; no hub state is read or written. -/
def async_set_switch (st : HubState) (oid : String) (state : Bool)
    (resp : CmdResult) : Bool × HubState :=
  (snmp_set oid (if state then 1 else 0) resp, st)

/-- An atomic section of one poll tick: either one completed background
fetch (which only writes the tick-local results dict) or the synchronous
transform loop (which contains no await and hence runs without yielding). -/
inductive PollAction where
  | fetch (oid : String)
  | publishTransform
deriving DecidableEq

/-- The tick-local results dict together with the shared value cache. -/
structure TickState where
  results : List (String × Option String)
  cache : ValueCache
deriving DecidableEq

/-- Effect of one atomic section. -/
def applyPollAction (sensors : List SensorDesc) (net : String → Option String)
    (ts : TickState) : PollAction → TickState
  | PollAction.fetch oid => { ts with results := dictSet ts.results oid (net oid) }
  | PollAction.publishTransform =>
    { ts with cache := transformLoop sensors ts.results ts.cache }

/-- The atomic sections of one tick in program order: all fetches, then the
transform loop (the code gathers all fetches before transforming). -/
def tickActions (sensors : List SensorDesc) : List PollAction :=
  sensors.map (fun s => PollAction.fetch s.oid) ++ [PollAction.publishTransform]

/-- All states at suspension points while running the given actions. -/
def traceStates (sensors : List SensorDesc) (net : String → Option String) :
    List PollAction → TickState → List TickState
  | [], ts => [ts]
  | a :: as, ts => ts :: traceStates sensors net as (applyPollAction sensors net ts a)

/-- Every value cache a concurrent event-loop reader can observe while one
tick runs from the given initial cache. -/
def tickCacheTrace (sensors : List SensorDesc) (net : String → Option String)
    (c : ValueCache) : List ValueCache :=
  (traceStates sensors net (tickActions sensors) ⟨[], c⟩).map TickState.cache

/-- Every sensor id the probing catalogue can ever produce, in source order. -/
def masterSensorIds : List String :=
  sensorCatalogue.flatMap (fun g => g.2.map SensorDesc.unique_id)

/-- Every switch id the probing catalogue can ever produce. -/
def masterSwitchIds : List String :=
  switchCatalogue.flatMap (fun g => g.2.map SwitchDesc.unique_id)

/-- Demo probe outcome: the device answers the SOC probes of cells 1 and 3
and the attomat channel 1 probe, and nothing else. -/
def demoProbe : String → Option String :=
  fun oid => if oid = socOid 1 || oid = socOid 3 || oid = attOid 1 then some "50" else none

/-- Demo sensor snapshot with five addresses. -/
def demoSensors : List SensorDesc :=
  [⟨"s1", "s1", "o1", none, "raw_int"⟩,
   ⟨"s2", "s2", "o2", none, "raw_int"⟩,
   ⟨"s3", "s3", "o3", none, "raw_int"⟩,
   ⟨"s4", "s4", "o4", none, "raw_int"⟩,
   ⟨"s5", "s5", "o5", none, "raw_int"⟩]

/-- The third demo sensor. -/
def demoSensor3 : SensorDesc := ⟨"s3", "s3", "o3", none, "raw_int"⟩

/-- Demo poll outcome: address o3 times out, every other address reads 10. -/
def demoNet : String → Option String :=
  fun oid => if oid = "o3" then none else some "10"

/-- Demo poll outcome for a second tick: every address reads 20. -/
def demoNet2 : String → Option String := fun _ => some "20"

/-- Demo hub state with one cached value. -/
def demoState : HubState := ⟨[], [], [("a", PyVal.vnum 1)]⟩

/-- Demo pre-merge registry content. -/
def demoOld : List SensorDesc := [⟨"a", "a", "oa", none, "raw_int"⟩]

/-- Demo descriptor not yet in the registry. -/
def demoD : SensorDesc := ⟨"b", "b", "ob", none, "raw_int"⟩

/-- Base-256 fingerprint of a string over its character codes. Duplicate
strings have equal fingerprints, so a duplicate-free fingerprint list
certifies a duplicate-free id list while letting the kernel compare machine
naturals instead of strings. -/
def strCode (s : String) : ℕ :=
  s.toList.foldl (fun a c => a * 256 + c.toNat) 0

/-- Boolean pairwise-distinctness check over naturals. -/
def natsDistinct : List ℕ → Bool
  | [] => true
  | x :: xs => !(xs.contains x) && natsDistinct xs

/-- The fingerprints of masterSensorIds, precomputed as literals. -/
def masterSensorCodes : List ℕ :=
  [2573334083924187814134183562559474586606657900,
   2340433715220740684835447937064791,
   2340433715220740686524250803234661,
   2340433715220740681182849052012148,
   133444369299516375751957731980784984428,
   121366946862437548178956119,
   121366946864126351045125989,
   121366946858784949293903476,
   8570166205715374786105322548452731582115683,
   36808583574831942990705355557135857547897662511081317,
   36808583574831942990705355557135857542556260759858804,
   158091662665985963841215934089950367594670156895533216176632421,
   8570166205715374786105322548452735877082979,
   36808583574831942990705355557135875994641736220632933,
   36808583574831942990705355557135875989300334469410420,
   158091662665985963841215934089950446822832671159870809720582757,
   8570166205715374786105322548452740172050275,
   36808583574831942990705355557135894441385809930184549,
   36808583574831942990705355557135894436044408178962036,
   158091662665985963841215934089950526050995185424208403264533093,
   8570166205715374786105322548452744467017571,
   36808583574831942990705355557135912888129883639736165,
   36808583574831942990705355557135912882788481888513652,
   158091662665985963841215934089950605279157699688545996808483429,
   8570166205715374786105322548452748761984867,
   36808583574831942990705355557135931334873957349287781,
   36808583574831942990705355557135931329532555598065268,
   158091662665985963841215934089950684507320213952883590352433765,
   8570166205715374786105322548452753056952163,
   36808583574831942990705355557135949781618031058839397,
   36808583574831942990705355557135949776276629307616884,
   158091662665985963841215934089950763735482728217221183896384101,
   8570166205715374786105322548452757351919459,
   36808583574831942990705355557135968228362104768391013,
   36808583574831942990705355557135968223020703017168500,
   158091662665985963841215934089950842963645242481558777440334437,
   8570166205715374786105322548452761646886755,
   36808583574831942990705355557135986675106178477942629,
   36808583574831942990705355557135986669764776726720116,
   158091662665985963841215934089950922191807756745896370984284773,
   8570166205715374786105322548452765941854051,
   36808583574831942990705355557136005121850252187494245,
   36808583574831942990705355557136005116508850436271732,
   158091662665985963841215934089951001419970271010233964528235109,
   2193962548663135945242962572403899082822872931,
   9422997395156977405620571022626778663609479064946042725,
   9422997395156977405620571022626778663604137663194820212,
   40471465642492406743351279127027290374030832842395507230558745189,
   2193962548663135945242962572403899087117840227,
   9422997395156977405620571022626778682056223138655594341,
   9422997395156977405620571022626778682050881736904371828,
   40471465642492406743351279127027290453258995356659844824102695525,
   2193962548663135945242962572403899091412807523,
   9422997395156977405620571022626778700502967212365145957,
   9422997395156977405620571022626778700497625810613923444,
   40471465642492406743351279127027290532487157870924182417646645861,
   2193962548663135945242962572403899095707774819,
   9422997395156977405620571022626778718949711286074697573,
   9422997395156977405620571022626778718944369884323475060,
   40471465642492406743351279127027290611715320385188520011190596197,
   2193962548663135945242962572403899100002742115,
   9422997395156977405620571022626778737396455359784249189,
   9422997395156977405620571022626778737391113958033026676,
   40471465642492406743351279127027290690943482899452857604734546533,
   2193962548663135945242962572403899104297709411,
   9422997395156977405620571022626778755843199433493800805,
   9422997395156977405620571022626778755837858031742578292,
   40471465642492406743351279127027290770171645413717195198278496869,
   2193962548663135945242962572403899108592676707,
   9422997395156977405620571022626778774289943507203352421,
   9422997395156977405620571022626778774284602105452129908,
   40471465642492406743351279127027290849399807927981532791822447205,
   2193962548663135945242962572403899112887644003,
   9422997395156977405620571022626778792736687580912904037,
   9422997395156977405620571022626778792731346179161681524,
   40471465642492406743351279127027290928627970442245870385366397541,
   2193962548663135945242962572403899117182611299,
   9422997395156977405620571022626778811183431654622455653,
   9422997395156977405620571022626778811178090252871233140,
   40471465642492406743351279127027291007856132956510207978910347877,
   2193962548663135945242962572403899121477578595,
   9422997395156977405620571022626778829630175728332007269,
   9422997395156977405620571022626778829624834326580784756,
   40471465642492406743351279127027291087084295470774545572454298213,
   2193962548663135945242962572403900182334500707,
   9422997395156977405620571022626783385975961934591256421,
   9422997395156977405620571022626783385970620532840033908,
   40471465642492406743351279127027310656440436494065931177810031205,
   2193962548663135945242962572403900186629468003,
   9422997395156977405620571022626783404422706008300808037,
   9422997395156977405620571022626783404417364606549585524,
   40471465642492406743351279127027310735668599008330268771353981541,
   2193962548663135945242962572403900190924435299,
   9422997395156977405620571022626783422869450082010359653,
   9422997395156977405620571022626783422864108680259137140,
   40471465642492406743351279127027310814896761522594606364897931877,
   2193962548663135945242962572403900195219402595,
   9422997395156977405620571022626783441316194155719911269,
   9422997395156977405620571022626783441310852753968688756,
   40471465642492406743351279127027310894124924036858943958441882213,
   2193962548663135945242962572403900199514369891,
   9422997395156977405620571022626783459762938229429462885,
   9422997395156977405620571022626783459757596827678240372,
   40471465642492406743351279127027310973353086551123281551985832549,
   2193962548663135945242962572403900203809337187,
   9422997395156977405620571022626783478209682303139014501,
   9422997395156977405620571022626783478204340901387791988,
   40471465642492406743351279127027311052581249065387619145529782885,
   2193962548663135945242962572403900208104304483,
   9422997395156977405620571022626783496656426376848566117,
   9422997395156977405620571022626783496651084975097343604,
   40471465642492406743351279127027311131809411579651956739073733221,
   2193962548663135945242962572403900212399271779,
   9422997395156977405620571022626783515103170450558117733,
   9422997395156977405620571022626783515097829048806895220,
   40471465642492406743351279127027311211037574093916294332617683557,
   2193962548663135945242962572403900216694239075,
   9422997395156977405620571022626783533549914524267669349,
   9422997395156977405620571022626783533544573122516446836,
   40471465642492406743351279127027311290265736608180631926161633893,
   2193962548663135945242962572403900220989206371,
   9422997395156977405620571022626783551996658597977220965,
   9422997395156977405620571022626783551991317196225998452,
   40471465642492406743351279127027311369493899122444969519705584229,
   2193962548663135945242962572403901281846128483,
   9422997395156977405620571022626788108342444804236470117,
   9422997395156977405620571022626788108337103402485247604,
   40471465642492406743351279127027330938850040145736355125061317221,
   2193962548663135945242962572403901286141095779,
   9422997395156977405620571022626788126789188877946021733,
   9422997395156977405620571022626788126783847476194799220,
   40471465642492406743351279127027331018078202660000692718605267557,
   2193962548663135945242962572403901290436063075,
   9422997395156977405620571022626788145235932951655573349,
   9422997395156977405620571022626788145230591549904350836,
   40471465642492406743351279127027331097306365174265030312149217893,
   506014779743822749137613647509550181,
   506014779743822749137895122486260837,
   506014779743822749138176597462971493,
   506014779743822749138458072439682149,
   506014779743822749138739547416392805,
   506014779743822749139021022393103461,
   506014779743822749139302497369814117,
   506014779743822749139583972346524773]

/-- The fingerprints of masterSwitchIds, precomputed as literals. -/
def masterSwitchCodes : List ℕ :=
  [1797725629671101718321,
   1797725629671101718322,
   1797725629671101718323,
   1797725629671101718324,
   1797725629671101718325,
   1797725629671101718326,
   1797725629671101718327,
   1797725629671101718328]

/-- Reading back the key just written returns the written value. -/
theorem dictGet_dictSet_self {α : Type} (d : List (String × α)) (k : String) (v : α) :
    dictGet (dictSet d k v) k = some v := by
  induction d with
  | nil => simp [dictSet, dictGet]
  | cons p rest ih =>
    obtain ⟨pk, pv⟩ := p
    by_cases h : pk = k
    · simp [dictSet, h, dictGet]
    · simp [dictSet, h, dictGet, ih]

/-- Writing one key leaves every other key unchanged. -/
theorem dictGet_dictSet_ne {α : Type} (d : List (String × α)) (k k' : String) (v : α)
    (h : k' ≠ k) : dictGet (dictSet d k v) k' = dictGet d k' := by
  have hne : ¬ k = k' := fun hh => h hh.symm
  induction d with
  | nil => simp [dictSet, dictGet, hne]
  | cons p rest ih =>
    obtain ⟨pk, pv⟩ := p
    by_cases hp : pk = k
    · subst hp
      simp [dictSet, dictGet, hne]
    · by_cases hp' : pk = k'
      · subst hp'
        simp [dictSet, dictGet, h, hne]
      · simp [dictSet, hp, dictGet, hp', ih]

/-- A successful dict lookup returns an entry of the list. -/
theorem dictGet_mem {α : Type} (d : List (String × α)) (k : String) (v : α)
    (h : dictGet d k = some v) : (k, v) ∈ d := by
  induction d with
  | nil => simp [dictGet] at h
  | cons p rest ih =>
    obtain ⟨pk, pv⟩ := p
    by_cases hp : pk = k
    · subst hp
      simp [dictGet] at h
      subst h
      exact List.mem_cons_self _ _
    · simp [dictGet, hp] at h
      exact List.mem_cons_of_mem _ (ih h)

/-- A key present in the list is found by dict lookup. -/
theorem dictGet_isSome_of_mem {α : Type} (d : List (String × α)) (k : String)
    (h : k ∈ d.map Prod.fst) : ∃ v, dictGet d k = some v := by
  induction d with
  | nil => simp at h
  | cons p rest ih =>
    obtain ⟨pk, pv⟩ := p
    by_cases hp : pk = k
    · exact ⟨pv, by simp [dictGet, hp]⟩
    · rw [List.map_cons] at h
      rcases List.mem_cons.mp h with h | h
      · exact absurd h.symm hp
      · obtain ⟨v, hv⟩ := ih h
        exact ⟨v, by simp [dictGet, hp, hv]⟩

/-- The append-or-skip fold of _merge, written as append plus filter. -/
theorem foldl_append_if {α : Type} (p : α → Bool) (new : List α) :
    ∀ acc : List α,
      new.foldl (fun acc e => if p e then acc else acc ++ [e]) acc
        = acc ++ new.filter (fun e => !(p e)) := by
  induction new with
  | nil => intro acc; simp
  | cons e rest ih =>
    intro acc
    by_cases h : p e
    · simp [List.foldl_cons, h, ih, List.filter_cons]
    · simp [List.foldl_cons, h, ih, List.filter_cons]

/-- _merge appends exactly the new entries whose key was absent before the
call; the pre-existing entries are untouched. -/
theorem mergeUnique_eq {α : Type} (key : α → String) (old new : List α) :
    mergeUnique key old new
      = old ++ new.filter (fun e => !((old.map key).contains (key e))) := by
  unfold mergeUnique
  exact foldl_append_if _ new old

/-- A key appears after a merge iff it appeared in either argument. -/
theorem mem_mergeUnique_map {α : Type} (key : α → String) (old new : List α)
    (k : String) :
    k ∈ (mergeUnique key old new).map key ↔ k ∈ old.map key ∨ k ∈ new.map key := by
  rw [mergeUnique_eq]
  simp only [List.map_append, List.mem_append]
  constructor
  · rintro (h | h)
    · exact Or.inl h
    · right
      obtain ⟨e, he, rfl⟩ := List.mem_map.mp h
      exact List.mem_map_of_mem _ (List.mem_of_mem_filter he)
  · rintro (h | h)
    · exact Or.inl h
    · by_cases hmem : k ∈ old.map key
      · exact Or.inl hmem
      · right
        obtain ⟨e, he, rfl⟩ := List.mem_map.mp h
        refine List.mem_map_of_mem _ (List.mem_filter.mpr ⟨he, ?_⟩)
        simpa using hmem

/-- Merging two lists of descriptors whose keys are individually duplicate
free yields a duplicate-free key list. -/
theorem mergeUnique_nodup {α : Type} (key : α → String) (old new : List α)
    (h1 : (old.map key).Nodup) (h2 : (new.map key).Nodup) :
    ((mergeUnique key old new).map key).Nodup := by
  rw [mergeUnique_eq, List.map_append, List.nodup_append]
  refine ⟨h1, ((List.filter_sublist new).map key).nodup h2, ?_⟩
  intro a ha hb
  obtain ⟨e, he, rfl⟩ := List.mem_map.mp hb
  have hk := (List.mem_filter.mp he).2
  have hk' : key e ∉ List.map key old := by simpa using hk
  exact hk' ha

/-- Re-merging the same descriptor list is a no-op. -/
theorem mergeUnique_idem {α : Type} (key : α → String) (old new : List α) :
    mergeUnique key (mergeUnique key old new) new = mergeUnique key old new := by
  conv_lhs => rw [mergeUnique_eq]
  have hnil : new.filter
      (fun e => !(((mergeUnique key old new).map key).contains (key e))) = [] := by
    rw [List.filter_eq_nil_iff]
    intro e he
    have hmem : key e ∈ (mergeUnique key old new).map key :=
      (mem_mergeUnique_map key old new (key e)).mpr
        (Or.inr (List.mem_map_of_mem key he))
    simpa using hmem
  rw [hnil, List.append_nil]

/-- Every transform lambda maps a None raw value to ok None. -/
theorem TRANSFORMS_apply_none (p : String × (Option String → Except Unit (Option ℚ)))
    (hp : p ∈ TRANSFORMS) : p.2 none = Except.ok none := by
  simp only [TRANSFORMS, List.mem_cons, List.not_mem_nil, or_false] at hp
  rcases hp with rfl | rfl | rfl | rfl | rfl | rfl <;> rfl

/-- Every transform lambda raises on a non-numeric string. -/
theorem TRANSFORMS_apply_error (p : String × (Option String → Except Unit (Option ℚ)))
    (hp : p ∈ TRANSFORMS) (s : String) (hs : parseFloat s = none) :
    p.2 (some s) = Except.error () := by
  have hpy : pyFloat s = Except.error () := by rw [pyFloat, hs]
  simp only [TRANSFORMS, List.mem_cons, List.not_mem_nil, or_false] at hp
  rcases hp with rfl | rfl | rfl | rfl | rfl | rfl <;> simp [hpy, Except.map]

/-- Every transform lambda maps a numeric string to ok of some number. -/
theorem TRANSFORMS_apply_ok (p : String × (Option String → Except Unit (Option ℚ)))
    (hp : p ∈ TRANSFORMS) (s : String) (q : ℚ) (hs : parseFloat s = some q) :
    ∃ q', p.2 (some s) = Except.ok (some q') := by
  have hpy : pyFloat s = Except.ok q := by rw [pyFloat, hs]
  simp only [TRANSFORMS, List.mem_cons, List.not_mem_nil, or_false] at hp
  rcases hp with rfl | rfl | rfl | rfl | rfl | rfl
  · exact ⟨q, by simp [hpy, Except.map]⟩
  · exact ⟨q / 100, by simp [hpy, Except.map]⟩
  · exact ⟨q / 1000, by simp [hpy, Except.map]⟩
  · exact ⟨q / 10, by simp [hpy, Except.map]⟩
  · exact ⟨q / 100 * 1000, by simp [hpy, Except.map]⟩
  · exact ⟨q / 1000 * 1000, by simp [hpy, Except.map]⟩

/-- The transform stage stores None when the raw value is absent, whatever
the transform tag is. -/
theorem applyTransformCaught_none (k : String) :
    applyTransformCaught k none = PyVal.vnone := by
  unfold applyTransformCaught
  cases h : dictGet TRANSFORMS k with
  | none => rfl
  | some tf =>
    have h2 : tf none = Except.ok none :=
      TRANSFORMS_apply_none (k, tf) (dictGet_mem _ _ _ h)
    simp only [h2]

/-- The transform stage stores None for a known tag and a non-numeric raw
value: the ValueError of float is caught at the call site. -/
theorem applyTransformCaught_badparse (k : String) (hk : k ∈ transformNames)
    (s : String) (hs : parseFloat s = none) :
    applyTransformCaught k (some s) = PyVal.vnone := by
  obtain ⟨tf, htf⟩ :=
    dictGet_isSome_of_mem TRANSFORMS k (by simpa [transformNames] using hk)
  have h2 : tf (some s) = Except.error () :=
    TRANSFORMS_apply_error (k, tf) (dictGet_mem _ _ _ htf) s hs
  unfold applyTransformCaught
  rw [htf]
  simp only [h2]

/-- The transform stage stores a number for a known tag and a numeric raw
value. -/
theorem applyTransformCaught_goodparse (k : String) (hk : k ∈ transformNames)
    (s : String) (q : ℚ) (hs : parseFloat s = some q) :
    ∃ q', applyTransformCaught k (some s) = PyVal.vnum q' := by
  obtain ⟨tf, htf⟩ :=
    dictGet_isSome_of_mem TRANSFORMS k (by simpa [transformNames] using hk)
  obtain ⟨q', hq'⟩ := TRANSFORMS_apply_ok (k, tf) (dictGet_mem _ _ _ htf) s q hs
  have hq2 : tf (some s) = Except.ok (some q') := hq'
  refine ⟨q', ?_⟩
  unfold applyTransformCaught
  rw [htf]
  simp only [hq2]

/-- Lookup in the dict built by folding one store per list element, where
the stored value is a function of the key: a key covered by the list reads
back its value, any other key falls through. -/
theorem fetch_foldl_get (net : String → Option String) (l : List SensorDesc) :
    ∀ (acc : List (String × Option String)) (key : String),
      dictGet (l.foldl (fun r s => dictSet r s.oid (net s.oid)) acc) key
        = if key ∈ l.map SensorDesc.oid then some (net key) else dictGet acc key := by
  induction l with
  | nil => intro acc key; simp
  | cons s rest ih =>
    intro acc key
    rw [List.foldl_cons, ih]
    by_cases hk : key ∈ rest.map SensorDesc.oid
    · simp [hk]
    · by_cases he : key = s.oid
      · subst he
        simp [hk, dictGet_dictSet_self]
      · simp [hk, he, dictGet_dictSet_ne _ _ _ _ he]

/-- The gather phase stores the network outcome of every polled OID. -/
theorem fetchResults_get (sensors : List SensorDesc) (net : String → Option String)
    (s : SensorDesc) (hs : s ∈ sensors) :
    dictGet (fetchResults sensors net) s.oid = some (net s.oid) := by
  unfold fetchResults
  rw [fetch_foldl_get]
  simp [List.mem_map_of_mem SensorDesc.oid hs]

/-- A fold of keyed stores leaves every uncovered key unchanged. -/
theorem foldl_store_not_mem {α β : Type} (uid : α → String) (val : α → β)
    (l : List α) :
    ∀ (vals : List (String × β)) (key : String), key ∉ l.map uid →
      dictGet (l.foldl (fun vs x => dictSet vs (uid x) (val x)) vals) key
        = dictGet vals key := by
  induction l with
  | nil => intro vals key _; rfl
  | cons s rest ih =>
    intro vals key hk
    have hk1 : key ≠ uid s := fun h => hk (by simp [h])
    have hk2 : key ∉ rest.map uid := fun h => hk (by simp [h])
    rw [List.foldl_cons, ih _ key hk2]
    exact dictGet_dictSet_ne _ _ _ _ hk1

/-- With duplicate-free keys, a fold of keyed stores makes every covered key
read back its own stored value. -/
theorem foldl_store_get {α β : Type} (uid : α → String) (val : α → β)
    (l : List α) (hnd : (l.map uid).Nodup) :
    ∀ x ∈ l, ∀ vals : List (String × β),
      dictGet (l.foldl (fun vs x => dictSet vs (uid x) (val x)) vals) (uid x)
        = some (val x) := by
  induction l with
  | nil => intro x hx; simp at hx
  | cons s rest ih =>
    intro x hx vals
    rw [List.map_cons, List.nodup_cons] at hnd
    rcases List.mem_cons.mp hx with rfl | hx
    · rw [List.foldl_cons,
        foldl_store_not_mem uid val rest _ (uid x) hnd.1,
        dictGet_dictSet_self]
    · exact ih hnd.2 x hx _

/-- The transform loop publishes, for every sensor of a duplicate-free
snapshot, the transform of the raw result looked up under its OID. -/
theorem transformLoop_get (sensors : List SensorDesc)
    (results : List (String × Option String)) (vals : ValueCache)
    (hnd : (sensors.map SensorDesc.unique_id).Nodup)
    (s : SensorDesc) (hs : s ∈ sensors) :
    dictGet (transformLoop sensors results vals) s.unique_id
      = some (applyTransformCaught s.tf (Option.join (dictGet results s.oid))) :=
  foldl_store_get SensorDesc.unique_id
    (fun t => applyTransformCaught t.tf (Option.join (dictGet results t.oid)))
    sensors hnd s hs vals

/-- End-to-end per-sensor equation for one poll tick. -/
theorem publishStep_get (sensors : List SensorDesc) (net : String → Option String)
    (c : ValueCache) (hnd : (sensors.map SensorDesc.unique_id).Nodup)
    (s : SensorDesc) (hs : s ∈ sensors) :
    dictGet (publishStep sensors net c) s.unique_id
      = some (applyTransformCaught s.tf (net s.oid)) := by
  have h1 := transformLoop_get sensors (fetchResults sensors net) c hnd s hs
  rw [fetchResults_get sensors net s hs] at h1
  simpa using h1

/-- The ids produced by a gated probing pass form a sublist of the ids of
the full catalogue. -/
theorem gatedFlatten_map_sublist {γ : Type} (uid : γ → String)
    (probe : String → Option String) (cat : List (String × List γ)) :
    List.Sublist ((gatedFlatten probe cat).map uid)
      (cat.flatMap (fun g => g.2.map uid)) := by
  unfold gatedFlatten
  rw [List.map_flatMap]
  induction cat with
  | nil => simp
  | cons g rest ih =>
    rw [List.flatMap_cons, List.flatMap_cons]
    by_cases h : (probe g.1).isSome = true
    · simp only [h, if_true]
      exact ih.append_left _
    · simp only [h, if_false, List.map_nil, List.nil_append]
      exact ih.trans (List.sublist_append_right _ _)

/-- Membership in the ids of a gated probing pass, characterized by groups. -/
theorem mem_gatedFlatten_map {γ : Type} (uid : γ → String)
    (probe : String → Option String) (cat : List (String × List γ)) (x : String) :
    x ∈ (gatedFlatten probe cat).map uid
      ↔ ∃ g ∈ cat, (probe g.1).isSome = true ∧ x ∈ g.2.map uid := by
  unfold gatedFlatten
  rw [List.map_flatMap]
  simp only [List.mem_flatMap]
  constructor
  · rintro ⟨g, hg, hx⟩
    by_cases h : (probe g.1).isSome = true
    · refine ⟨g, hg, h, ?_⟩
      rwa [if_pos h] at hx
    · rw [if_neg h] at hx
      simp at hx
  · rintro ⟨g, hg, h, hx⟩
    refine ⟨g, hg, ?_⟩
    rwa [if_pos h]

/-- A duplicate-free flattened list splits into pairwise-disjoint groups. -/
theorem nodup_flatMap_pairwise {A B : Type} (f : A → List B) (l : List A)
    (h : (l.flatMap f).Nodup) :
    l.Pairwise (fun g g' => ∀ x, x ∈ f g → x ∉ f g') := by
  induction l with
  | nil => exact List.Pairwise.nil
  | cons g rest ih =>
    rw [List.flatMap_cons, List.nodup_append] at h
    obtain ⟨h1, h2, h3⟩ := h
    refine List.Pairwise.cons ?_ (ih h2)
    intro g' hg' x hx hx'
    exact h3 hx (List.mem_flatMap.mpr ⟨g', hg', hx'⟩)

/-- In a pairwise-disjoint family, an element pins down its group. -/
theorem pairwise_disjoint_eq {A B : Type} (f : A → List B) (l : List A)
    (hp : l.Pairwise (fun g g' => ∀ x, x ∈ f g → x ∉ f g'))
    (g₁ g₂ : A) (h₁ : g₁ ∈ l) (h₂ : g₂ ∈ l) (x : B)
    (hx₁ : x ∈ f g₁) (hx₂ : x ∈ f g₂) : g₁ = g₂ := by
  induction l with
  | nil => simp at h₁
  | cons g rest ih =>
    rw [List.pairwise_cons] at hp
    rcases List.mem_cons.mp h₁ with he₁ | hm₁
    · rcases List.mem_cons.mp h₂ with he₂ | hm₂
      · rw [he₁, he₂]
      · rw [he₁] at hx₁
        exact absurd hx₂ (hp.1 g₂ hm₂ x hx₁)
    · rcases List.mem_cons.mp h₂ with he₂ | hm₂
      · rw [he₂] at hx₂
        exact absurd hx₁ (hp.1 g₁ hm₁ x hx₂)
      · exact ih hp.2 hm₁ hm₂

/-- For a catalogue with globally duplicate-free ids, an id of a given group
is discovered iff the gate OID of that very group responded. -/
theorem mem_gated_iff_gate {γ : Type} (uid : γ → String)
    (probe : String → Option String) (cat : List (String × List γ))
    (hnd : (cat.flatMap (fun g => g.2.map uid)).Nodup)
    (g₀ : String × List γ) (hg : g₀ ∈ cat) (x : String) (hx : x ∈ g₀.2.map uid) :
    x ∈ (gatedFlatten probe cat).map uid ↔ (probe g₀.1).isSome = true := by
  rw [mem_gatedFlatten_map]
  constructor
  · rintro ⟨g, hgm, hgate, hxm⟩
    have heq : g = g₀ :=
      pairwise_disjoint_eq (fun g => g.2.map uid) cat
        (nodup_flatMap_pairwise _ _ hnd) g g₀ hgm hg x hxm hx
    rwa [heq] at hgate
  · intro h
    exact ⟨g₀, hg, h, hx⟩

/-- A passing distinctness check certifies Nodup. -/
theorem natsDistinct_nodup : ∀ l : List ℕ, natsDistinct l = true → l.Nodup := by
  intro l
  induction l with
  | nil => intro h; exact List.nodup_nil
  | cons x xs ih =>
    intro h
    rw [natsDistinct] at h
    obtain ⟨ha, hb⟩ := (Bool.and_eq_true _ _).mp h
    refine List.nodup_cons.mpr ⟨fun hmem => ?_, ih hb⟩
    have hc : xs.contains x = true := List.elem_iff.mpr hmem
    rw [hc] at ha
    exact Bool.noConfusion ha

/-- A passing all-not-contains check certifies list disjointness. -/
theorem all_not_contains_disjoint (A B : List ℕ)
    (h : (A.all fun a => !(B.contains a)) = true) : ∀ x ∈ A, x ∉ B := by
  intro x hx hxB
  have hh := List.all_eq_true.mp h x hx
  have hc : B.contains x = true := List.elem_iff.mpr hxB
  rw [hc] at hh
  exact Bool.noConfusion hh

set_option maxRecDepth 100000 in
set_option maxHeartbeats 4000000 in
/-- The catalogue sensor ids map onto the precomputed fingerprints. -/
theorem masterSensorCodes_eq : masterSensorIds.map strCode = masterSensorCodes := by
  rfl

set_option maxRecDepth 100000 in
set_option maxHeartbeats 1000000 in
/-- The catalogue switch ids map onto the precomputed fingerprints. -/
theorem masterSwitchCodes_eq : masterSwitchIds.map strCode = masterSwitchCodes := by
  rfl

set_option maxRecDepth 100000 in
set_option maxHeartbeats 4000000 in
/-- The sensor fingerprints are pairwise distinct. -/
theorem masterSensorCodes_distinct : natsDistinct masterSensorCodes = true := by
  rfl

/-- The switch fingerprints are pairwise distinct. -/
theorem masterSwitchCodes_distinct : natsDistinct masterSwitchCodes = true := by
  rfl

set_option maxHeartbeats 1000000 in
/-- No sensor fingerprint is a switch fingerprint. -/
theorem masterCodes_disjoint :
    (masterSensorCodes.all fun a => !(masterSwitchCodes.contains a)) = true := by
  rfl

/-- The full probing catalogue yields pairwise distinct sensor ids. -/
theorem masterSensorIds_nodup : masterSensorIds.Nodup := by
  have h2 : (masterSensorIds.map strCode).Nodup := by
    rw [masterSensorCodes_eq]
    exact natsDistinct_nodup _ masterSensorCodes_distinct
  exact h2.of_map

/-- The full probing catalogue yields pairwise distinct switch ids. -/
theorem masterSwitchIds_nodup : masterSwitchIds.Nodup := by
  have h2 : (masterSwitchIds.map strCode).Nodup := by
    rw [masterSwitchCodes_eq]
    exact natsDistinct_nodup _ masterSwitchCodes_distinct
  exact h2.of_map

/-- No possible sensor id collides with a possible switch id. -/
theorem master_disjoint : ∀ x ∈ masterSensorIds, x ∉ masterSwitchIds := by
  intro x hx hxs
  have hcx : strCode x ∈ masterSensorCodes := by
    rw [← masterSensorCodes_eq]
    exact List.mem_map_of_mem _ hx
  have hcs : strCode x ∈ masterSwitchCodes := by
    rw [← masterSwitchCodes_eq]
    exact List.mem_map_of_mem _ hxs
  exact all_not_contains_disjoint _ _ masterCodes_disjoint (strCode x) hcx hcs

/-- Sensor list produced by one discovery step. -/
theorem async_discover_sensors (p : String → Option String) (st : HubState) :
    (async_discover p st).sensors
      = mergeUnique SensorDesc.unique_id st.sensors (discoverSensors p) := rfl

/-- Switch list produced by one discovery step. -/
theorem async_discover_switches (p : String → Option String) (st : HubState) :
    (async_discover p st).switches
      = mergeUnique SwitchDesc.unique_id st.switches (discoverSwitches p) := rfl

/-- C2 counterexample: the read primitive maps a no-such-object report and a
timeout to the very same caller-visible result (None), so the two failure
outcomes are not observably different, contradicting the claim. -/
theorem claim_C2_counterexample :
    snmp_get (responseToCmdResult SnmpResponse.noSuchObject) = none ∧
    snmp_get (responseToCmdResult SnmpResponse.timeout) = none ∧
    snmp_get (responseToCmdResult SnmpResponse.noSuchObject)
      = snmp_get (responseToCmdResult SnmpResponse.timeout) := by
  exact ⟨rfl, rfl, rfl⟩

/-- C2 amended: the single-address read returns the decoded value on success
and None on every failure; no-such-object, timeout and protocol error all
collapse to the same absent result, with no NotPresent versus Timeout
distinction available to the caller. -/
theorem claim_C2_read_collapses_failures (r : SnmpResponse) :
    snmp_get (responseToCmdResult r)
      = match r with
        | SnmpResponse.value s => some s
        | _ => none := by
  cases r <;> rfl

/-- C4: transform application never raises; for every TransformKind the
absent raw value maps to absent, and a non-numeric raw value has its
conversion failure caught and mapped to absent. -/
theorem claim_C4_transform_total (k : String) (hk : k ∈ transformNames) :
    applyTransformCaught k none = PyVal.vnone ∧
    ∀ s : String, parseFloat s = none →
      applyTransformCaught k (some s) = PyVal.vnone :=
  ⟨applyTransformCaught_none k, fun s hs => applyTransformCaught_badparse k hk s hs⟩

/-- C4 witness: div100 on the absent value and on the non-numeric string abc. -/
theorem claim_C4_witness :
    "div100" ∈ transformNames ∧ parseFloat "abc" = none ∧
    applyTransformCaught "div100" none = PyVal.vnone ∧
    applyTransformCaught "div100" (some "abc") = PyVal.vnone :=
  ⟨by decide, by decide,
   (claim_C4_transform_total "div100" (by decide)).1,
   (claim_C4_transform_total "div100" (by decide)).2 "abc" (by decide)⟩

/-- C5: registry merge inserts exactly the descriptors whose id is absent
from the pre-merge registry and never overwrites an existing entry (first
conjunct), merging the same list twice changes nothing (second conjunct),
and merging the same descriptor twice leaves exactly one entry with its id
(third conjunct). -/
theorem claim_C5_merge_idempotent (old new : List SensorDesc) (d : SensorDesc)
    (hnd : (old.map SensorDesc.unique_id).Nodup) :
    mergeUnique SensorDesc.unique_id old new
      = old ++ new.filter
          (fun e => !((old.map SensorDesc.unique_id).contains e.unique_id)) ∧
    mergeUnique SensorDesc.unique_id (mergeUnique SensorDesc.unique_id old new) new
      = mergeUnique SensorDesc.unique_id old new ∧
    (mergeUnique SensorDesc.unique_id
        (mergeUnique SensorDesc.unique_id old [d]) [d]).countP
      (fun e => e.unique_id == d.unique_id) = 1 := by
  refine ⟨mergeUnique_eq _ _ _, mergeUnique_idem _ _ _, ?_⟩
  rw [mergeUnique_idem, mergeUnique_eq]
  by_cases hd : d.unique_id ∈ old.map SensorDesc.unique_id
  · have hc : (old.map SensorDesc.unique_id).contains d.unique_id = true :=
      List.elem_iff.mpr hd
    have hfil : List.filter
        (fun e => !((old.map SensorDesc.unique_id).contains e.unique_id)) [d]
          = [] := by
      simp [List.filter_cons]
      exact List.mem_map.mp hd
    rw [hfil, List.append_nil]
    have h1 : (old.map SensorDesc.unique_id).count d.unique_id = 1 :=
      List.count_eq_one_of_mem hnd hd
    have hcp : old.countP (fun e => e.unique_id == d.unique_id)
        = (List.map SensorDesc.unique_id old).countP (fun x => x == d.unique_id) := by
      rw [List.countP_map]
      rfl
    calc old.countP (fun e => e.unique_id == d.unique_id)
        = (List.map SensorDesc.unique_id old).countP (fun x => x == d.unique_id) := hcp
      _ = (old.map SensorDesc.unique_id).count d.unique_id :=
          (List.count_eq_countP _ _).symm
      _ = 1 := h1
  · have hfil : List.filter
        (fun e => !((old.map SensorDesc.unique_id).contains e.unique_id)) [d]
          = [d] := by
      simp [List.filter_cons]
      intro x hx heq
      exact hd (heq ▸ List.mem_map_of_mem _ hx)
    rw [hfil, List.countP_append]
    have h0 : old.countP (fun e => e.unique_id == d.unique_id) = 0 := by
      rw [List.countP_eq_zero]
      intro e he hb
      have heq : e.unique_id = d.unique_id := by simpa using hb
      exact hd (heq ▸ List.mem_map_of_mem _ he)
    simp [h0, List.countP_cons]

/-- C5 witness: merging a fresh descriptor into a singleton registry. -/
theorem claim_C5_witness :
    (demoOld.map SensorDesc.unique_id).Nodup ∧
    (mergeUnique SensorDesc.unique_id
        (mergeUnique SensorDesc.unique_id demoOld [demoD]) [demoD]).countP
      (fun e => e.unique_id == demoD.unique_id) = 1 :=
  ⟨by decide,
   (claim_C5_merge_idempotent demoOld [demoD] demoD (by decide)).2.2⟩

/-- C9: async_set_switch returns the success bit of the device write and
leaves the hub state, in particular every cached value, unchanged; a failed
write (errorIndication or errorStatus set) returns false. -/
theorem claim_C9_set_switch_frame (st : HubState) (oid : String) (b : Bool)
    (resp : CmdResult) :
    (async_set_switch st oid b resp).2 = st ∧
    (async_set_switch st oid b resp).1
      = !(resp.errorIndication || resp.errorStatus) ∧
    ∀ uid : String,
      get_value (async_set_switch st oid b resp).2 uid = get_value st uid :=
  ⟨rfl, rfl, fun _ => rfl⟩

/-- C10: get_value is total and side-effect free: it never changes the hub
state, and an id with no cache entry reads as None instead of raising. -/
theorem claim_C10_get_value_total (st : HubState) (uid : String) :
    (get_value_step st uid).2 = st ∧
    (uid ∉ st.values.map Prod.fst → (get_value_step st uid).1 = PyVal.vnone) := by
  refine ⟨rfl, fun h => ?_⟩
  unfold get_value_step get_value
  cases hh : dictGet st.values uid with
  | none => rfl
  | some v =>
    exact absurd (List.mem_map_of_mem Prod.fst (dictGet_mem _ _ _ hh)) h

/-- C10 witness: reading the never-written id zz from the demo state. -/
theorem claim_C10_witness :
    (get_value_step demoState "zz").2 = demoState ∧
    (get_value_step demoState "zz").1 = PyVal.vnone :=
  ⟨(claim_C10_get_value_total demoState "zz").1,
   (claim_C10_get_value_total demoState "zz").2 (by decide)⟩

/-- C3: per-address isolation of a poll tick. For every duplicate-free
sensor snapshot and every pattern of per-address outcomes, the published
cache holds an entry for every sensor that is a function of that sensor's
own address outcome alone (first two conjuncts), the entry is None when the
read failed (third conjunct), and a successful numeric read of a sensor with
a known transform tag publishes a number (fourth conjunct). The publish
function is total, so no exception escapes the tick. -/
theorem claim_C3_poll_isolation (sensors : List SensorDesc)
    (net : String → Option String) (c : ValueCache)
    (hnd : (sensors.map SensorDesc.unique_id).Nodup) :
    ∀ s ∈ sensors,
      dictGet (publishStep sensors net c) s.unique_id
        = some (applyTransformCaught s.tf (net s.oid)) ∧
      (∀ net' : String → Option String, net' s.oid = net s.oid →
        dictGet (publishStep sensors net' c) s.unique_id
          = dictGet (publishStep sensors net c) s.unique_id) ∧
      (net s.oid = none →
        dictGet (publishStep sensors net c) s.unique_id = some PyVal.vnone) ∧
      (∀ str q, net s.oid = some str → parseFloat str = some q →
        s.tf ∈ transformNames →
        ∃ q', dictGet (publishStep sensors net c) s.unique_id
          = some (PyVal.vnum q')) := by
  intro s hs
  have h1 := publishStep_get sensors net c hnd s hs
  refine ⟨h1, ?_, ?_, ?_⟩
  · intro net' hne
    rw [publishStep_get sensors net' c hnd s hs, h1, hne]
  · intro h0
    rw [h1, h0, applyTransformCaught_none]
  · intro str q hstr hq htf
    obtain ⟨q', hq'⟩ := applyTransformCaught_goodparse s.tf htf str q hq
    exact ⟨q', by rw [h1, hstr, hq']⟩

/-- C3 witness: five sensors with the third address timing out; the third
published entry is the absent value while the tick still publishes it. -/
theorem claim_C3_witness :
    (demoSensors.map SensorDesc.unique_id).Nodup ∧
    demoSensor3 ∈ demoSensors ∧
    demoNet demoSensor3.oid = none ∧
    dictGet (publishStep demoSensors demoNet []) demoSensor3.unique_id
      = some PyVal.vnone :=
  ⟨by decide, by decide, by decide,
   (claim_C3_poll_isolation demoSensors demoNet [] (by decide)
     demoSensor3 (by decide)).2.2.1 (by decide)⟩

/-- Every suspension-point state of a tick run holds either the initial
cache or the fully transformed one. -/
theorem trace_cache_cases (sensors : List SensorDesc)
    (net : String → Option String) :
    ∀ (ss : List SensorDesc) (ts : TickState),
      ∀ st ∈ traceStates sensors net
          (ss.map (fun s => PollAction.fetch s.oid)
            ++ [PollAction.publishTransform]) ts,
        st.cache = ts.cache ∨
        st.cache = transformLoop sensors
          (ss.foldl (fun r s => dictSet r s.oid (net s.oid)) ts.results)
          ts.cache := by
  intro ss
  induction ss with
  | nil =>
    intro ts st hst
    simp only [List.map_nil, List.nil_append, traceStates, applyPollAction,
      List.mem_cons, List.not_mem_nil, or_false, List.mem_singleton] at hst
    rcases hst with rfl | rfl
    · exact Or.inl rfl
    · exact Or.inr rfl
  | cons s rest ih =>
    intro ts st hst
    rw [List.map_cons, List.cons_append] at hst
    simp only [traceStates] at hst
    rcases List.mem_cons.mp hst with rfl | hst
    · exact Or.inl rfl
    · rcases ih (applyPollAction sensors net ts (PollAction.fetch s.oid)) st hst
        with h | h
      · exact Or.inl h
      · right
        rw [List.foldl_cons]
        exact h

/-- Every cache observable during one tick is the pre-tick cache or the
post-tick cache. -/
theorem tickCacheTrace_cases (sensors : List SensorDesc)
    (net : String → Option String) (c : ValueCache) :
    ∀ cc ∈ tickCacheTrace sensors net c,
      cc = c ∨ cc = publishStep sensors net c := by
  intro cc hcc
  unfold tickCacheTrace at hcc
  obtain ⟨st, hst, rfl⟩ := List.mem_map.mp hcc
  exact trace_cache_cases sensors net sensors ⟨[], c⟩ st hst

/-- C1: the poll publish is atomic with respect to event-loop readers. Over
two consecutive ticks, every observable cache is exactly the pre-tick-N
cache, the post-tick-N cache, or the post-tick-N+1 cache; no reader ever
sees a mapping mixing values of the two ticks. -/
theorem claim_C1_publish_atomic (S₁ S₂ : List SensorDesc)
    (net₁ net₂ : String → Option String) (c₀ : ValueCache) :
    ∀ cc ∈ tickCacheTrace S₁ net₁ c₀
        ++ tickCacheTrace S₂ net₂ (publishStep S₁ net₁ c₀),
      cc = c₀ ∨ cc = publishStep S₁ net₁ c₀
        ∨ cc = publishStep S₂ net₂ (publishStep S₁ net₁ c₀) := by
  intro cc hcc
  rcases List.mem_append.mp hcc with h | h
  · rcases tickCacheTrace_cases S₁ net₁ c₀ cc h with h' | h'
    · exact Or.inl h'
    · exact Or.inr (Or.inl h')
  · rcases tickCacheTrace_cases S₂ net₂ _ cc h with h' | h'
    · exact Or.inr (Or.inl h')
    · exact Or.inr (Or.inr h')

/-- C1 witness: the cache published by the first demo tick is observable and
is one of the three legal snapshots. -/
theorem claim_C1_witness :
    publishStep demoSensors demoNet []
      ∈ tickCacheTrace demoSensors demoNet []
        ++ tickCacheTrace demoSensors demoNet2 (publishStep demoSensors demoNet []) ∧
    (publishStep demoSensors demoNet [] = ([] : ValueCache) ∨
     publishStep demoSensors demoNet [] = publishStep demoSensors demoNet [] ∨
     publishStep demoSensors demoNet []
       = publishStep demoSensors demoNet2 (publishStep demoSensors demoNet [])) :=
  ⟨by decide,
   claim_C1_publish_atomic demoSensors demoSensors demoNet demoNet2 []
     (publishStep demoSensors demoNet []) (by decide)⟩

/-- The battery group of index n sits in the probing catalogue. -/
theorem cellGroup_mem_catalogue (n : ℕ) (hn : n ∈ List.range' 1 32) :
    cellGroup n ∈ sensorCatalogue := by
  unfold sensorCatalogue
  exact List.mem_append.mpr (Or.inl (List.mem_append.mpr (Or.inr
    (List.mem_map_of_mem cellGroup hn))))

/-- The attomat state-sensor group of channel idx sits in the catalogue. -/
theorem attSensorGroup_mem_catalogue (idx : ℕ) (hidx : idx ∈ List.range' 1 8) :
    attSensorGroup idx ∈ sensorCatalogue := by
  unfold sensorCatalogue
  exact List.mem_append.mpr (Or.inr (List.mem_map_of_mem attSensorGroup hidx))

/-- The attomat switch group of channel idx sits in the switch catalogue. -/
theorem attSwitchGroup_mem_catalogue (idx : ℕ) (hidx : idx ∈ List.range' 1 8) :
    attSwitchGroup idx ∈ switchCatalogue :=
  List.mem_map_of_mem attSwitchGroup hidx

/-- C6: for every battery index 1..32 and every one of the four descriptors
of that cell, the descriptor is emitted by a discovery run iff the SOC probe
of that index answered; in particular a failed SOC probe suppresses all four. -/
theorem claim_C6_cell_gated_by_soc (probe : String → Option String) (n : ℕ)
    (hn : n ∈ List.range' 1 32) :
    ∀ d ∈ (cellGroup n).2,
      (d.unique_id ∈ (discoverSensors probe).map SensorDesc.unique_id
        ↔ (probe (socOid n)).isSome = true) := by
  intro d hd
  exact mem_gated_iff_gate SensorDesc.unique_id probe sensorCatalogue
    masterSensorIds_nodup (cellGroup n) (cellGroup_mem_catalogue n hn)
    d.unique_id (List.mem_map_of_mem _ hd)

/-- C6 witness: under the demo probe (SOC of cells 1 and 3 answer, cell 2
does not) the voltage descriptor of cell 3 is emitted and the one of cell 2
is not. -/
theorem claim_C6_witness :
    (3 ∈ List.range' 1 32) ∧
    ((⟨"battery_cell_" ++ toString 3 ++ "_voltage",
       "Battery Cell " ++ toString 3 ++ " Voltage", voltOid 3, some "V",
       "div100"⟩ : SensorDesc) ∈ (cellGroup 3).2) ∧
    (demoProbe (socOid 3)).isSome = true ∧
    ("battery_cell_" ++ toString 3 ++ "_voltage"
      ∈ (discoverSensors demoProbe).map SensorDesc.unique_id
        ↔ (demoProbe (socOid 3)).isSome = true) :=
  ⟨by decide, by decide, by decide,
   claim_C6_cell_gated_by_soc demoProbe 3 (by decide)
     ⟨"battery_cell_" ++ toString 3 ++ "_voltage",
      "Battery Cell " ++ toString 3 ++ " Voltage", voltOid 3, some "V",
      "div100"⟩ (by decide)⟩

/-- One discovery run emits the switch of channel idx iff its probe answered. -/
theorem switch_discovered_iff (probe : String → Option String) (idx : ℕ)
    (hidx : idx ∈ List.range' 1 8) :
    ("attomat_" ++ toString idx)
        ∈ (discoverSwitches probe).map SwitchDesc.unique_id
      ↔ (probe (attOid idx)).isSome = true :=
  mem_gated_iff_gate SwitchDesc.unique_id probe switchCatalogue
    masterSwitchIds_nodup (attSwitchGroup idx)
    (attSwitchGroup_mem_catalogue idx hidx)
    ("attomat_" ++ toString idx) (by simp [attSwitchGroup])

/-- One discovery run emits the state sensor of channel idx iff its probe
answered. -/
theorem state_discovered_iff (probe : String → Option String) (idx : ℕ)
    (hidx : idx ∈ List.range' 1 8) :
    ("attomat_" ++ toString idx ++ "_state")
        ∈ (discoverSensors probe).map SensorDesc.unique_id
      ↔ (probe (attOid idx)).isSome = true :=
  mem_gated_iff_gate SensorDesc.unique_id probe sensorCatalogue
    masterSensorIds_nodup (attSensorGroup idx)
    (attSensorGroup_mem_catalogue idx hidx)
    ("attomat_" ++ toString idx ++ "_state") (by simp [attSensorGroup])

/-- C7: after any sequence of discovery runs from a fresh hub, the switch
descriptor of a channel and its companion state sensor are both present or
both absent in the registry. -/
theorem claim_C7_switch_state_paired (probes : List (String → Option String))
    (idx : ℕ) (hidx : idx ∈ List.range' 1 8) :
    (("attomat_" ++ toString idx)
        ∈ (runDiscoveries probes).switches.map SwitchDesc.unique_id)
      ↔ (("attomat_" ++ toString idx ++ "_state")
        ∈ (runDiscoveries probes).sensors.map SensorDesc.unique_id) := by
  have main : ∀ (ps : List (String → Option String)) (st : HubState),
      ((("attomat_" ++ toString idx) ∈ st.switches.map SwitchDesc.unique_id)
        ↔ (("attomat_" ++ toString idx ++ "_state")
            ∈ st.sensors.map SensorDesc.unique_id)) →
      ((("attomat_" ++ toString idx)
          ∈ (ps.foldl (fun s p => async_discover p s) st).switches.map
              SwitchDesc.unique_id)
        ↔ (("attomat_" ++ toString idx ++ "_state")
          ∈ (ps.foldl (fun s p => async_discover p s) st).sensors.map
              SensorDesc.unique_id)) := by
    intro ps
    induction ps with
    | nil => intro st h; exact h
    | cons p rest ih =>
      intro st h
      rw [List.foldl_cons]
      apply ih
      rw [async_discover_switches, async_discover_sensors,
        mem_mergeUnique_map, mem_mergeUnique_map,
        switch_discovered_iff p idx hidx, state_discovered_iff p idx hidx, h]
  exact main probes initialHub (by simp [initialHub])

/-- C7 witness: one discovery run with the demo probe, channel 1. -/
theorem claim_C7_witness :
    (1 ∈ List.range' 1 8) ∧
    ((("attomat_" ++ toString 1)
        ∈ (runDiscoveries [demoProbe]).switches.map SwitchDesc.unique_id)
      ↔ (("attomat_" ++ toString 1 ++ "_state")
        ∈ (runDiscoveries [demoProbe]).sensors.map SensorDesc.unique_id)) :=
  ⟨by decide, claim_C7_switch_state_paired [demoProbe] 1 (by decide)⟩

/-- A discovery run emits duplicate-free sensor ids. -/
theorem discoverSensors_ids_nodup (probe : String → Option String) :
    ((discoverSensors probe).map SensorDesc.unique_id).Nodup :=
  (gatedFlatten_map_sublist SensorDesc.unique_id probe sensorCatalogue).nodup
    masterSensorIds_nodup

/-- A discovery run emits duplicate-free switch ids. -/
theorem discoverSwitches_ids_nodup (probe : String → Option String) :
    ((discoverSwitches probe).map SwitchDesc.unique_id).Nodup :=
  (gatedFlatten_map_sublist SwitchDesc.unique_id probe switchCatalogue).nodup
    masterSwitchIds_nodup

/-- Every emitted sensor id comes from the master catalogue id list. -/
theorem discoverSensors_ids_subset (probe : String → Option String) :
    ∀ x ∈ (discoverSensors probe).map SensorDesc.unique_id,
      x ∈ masterSensorIds :=
  fun _ hx =>
    (gatedFlatten_map_sublist SensorDesc.unique_id probe sensorCatalogue).subset hx

/-- Every emitted switch id comes from the master switch id list. -/
theorem discoverSwitches_ids_subset (probe : String → Option String) :
    ∀ x ∈ (discoverSwitches probe).map SwitchDesc.unique_id,
      x ∈ masterSwitchIds :=
  fun _ hx =>
    (gatedFlatten_map_sublist SwitchDesc.unique_id probe switchCatalogue).subset hx

/-- C8: across every sequence of discovery runs from a fresh hub, descriptor
ids stay globally unique over the union of the sensor and switch sets, and
one further run only appends descriptors: no existing descriptor is ever
removed or replaced. -/
theorem claim_C8_registry_grows_unique (probes : List (String → Option String)) :
    ((runDiscoveries probes).sensors.map SensorDesc.unique_id
      ++ (runDiscoveries probes).switches.map SwitchDesc.unique_id).Nodup ∧
    ∀ p : String → Option String,
      (∃ ts, (async_discover p (runDiscoveries probes)).sensors
          = (runDiscoveries probes).sensors ++ ts) ∧
      (∃ tw, (async_discover p (runDiscoveries probes)).switches
          = (runDiscoveries probes).switches ++ tw) := by
  have main : ∀ (ps : List (String → Option String)) (st : HubState),
      (st.sensors.map SensorDesc.unique_id).Nodup →
      (st.switches.map SwitchDesc.unique_id).Nodup →
      (∀ x ∈ st.sensors.map SensorDesc.unique_id, x ∈ masterSensorIds) →
      (∀ x ∈ st.switches.map SwitchDesc.unique_id, x ∈ masterSwitchIds) →
      ((ps.foldl (fun s p => async_discover p s) st).sensors.map
          SensorDesc.unique_id).Nodup ∧
      ((ps.foldl (fun s p => async_discover p s) st).switches.map
          SwitchDesc.unique_id).Nodup ∧
      (∀ x ∈ (ps.foldl (fun s p => async_discover p s) st).sensors.map
          SensorDesc.unique_id, x ∈ masterSensorIds) ∧
      (∀ x ∈ (ps.foldl (fun s p => async_discover p s) st).switches.map
          SwitchDesc.unique_id, x ∈ masterSwitchIds) := by
    intro ps
    induction ps with
    | nil => intro st h1 h2 h3 h4; exact ⟨h1, h2, h3, h4⟩
    | cons p rest ih =>
      intro st h1 h2 h3 h4
      rw [List.foldl_cons]
      apply ih
      · rw [async_discover_sensors]
        exact mergeUnique_nodup _ _ _ h1 (discoverSensors_ids_nodup p)
      · rw [async_discover_switches]
        exact mergeUnique_nodup _ _ _ h2 (discoverSwitches_ids_nodup p)
      · intro x hx
        rw [async_discover_sensors] at hx
        rcases (mem_mergeUnique_map _ _ _ _).mp hx with h | h
        · exact h3 x h
        · exact discoverSensors_ids_subset p x h
      · intro x hx
        rw [async_discover_switches] at hx
        rcases (mem_mergeUnique_map _ _ _ _).mp hx with h | h
        · exact h4 x h
        · exact discoverSwitches_ids_subset p x h
  obtain ⟨h1, h2, h3, h4⟩ := main probes initialHub (by simp [initialHub])
    (by simp [initialHub]) (by simp [initialHub]) (by simp [initialHub])
  refine ⟨?_, ?_⟩
  · rw [List.nodup_append]
    exact ⟨h1, h2, fun a ha hb => master_disjoint a (h3 a ha) (h4 a hb)⟩
  · intro p
    constructor
    · refine ⟨(discoverSensors p).filter
        (fun e => !(((runDiscoveries probes).sensors.map
          SensorDesc.unique_id).contains e.unique_id)), ?_⟩
      rw [async_discover_sensors, mergeUnique_eq]
    · refine ⟨(discoverSwitches p).filter
        (fun e => !(((runDiscoveries probes).switches.map
          SwitchDesc.unique_id).contains e.unique_id)), ?_⟩
      rw [async_discover_switches, mergeUnique_eq]
